import Mathlib

/-
  Verification development for the FootyPredict mock API (mock_api.py).

  Embedding conventions:
  * Python floats are modeled as exact rationals.  Decimal literals of the
    source such as 0.40 denote the exact rational 2/5 here.
  * Python round(x, n) rounds half to even; `pyRound` models it exactly on
    rationals (ignoring binary-float representation noise).
  * random.Random(seed) with seed derived from sha256 of a key string is a
    fixed deterministic algorithm; it is modeled by an abstract stream
    assignment `RngAlg : String → ℕ → ℚ` giving, for each seed key, the
    sequence of values produced by successive rng.random() calls.  A valid
    algorithm produces values in [0, 1).
  * Python list.sort(key, reverse) is a stable sort; its output is the
    unique stable ordering, realized here by List.insertionSort with the
    corresponding non-strict should-precede relation.
  * Python string comparison is lexicographic on code points; `pyStrLt`
    models it on the character lists of the strings.
  * The HTTP fetch `_fetch_fixtures_from_api` is an external collaborator;
    it enters the model as a function parameter `fetchApi` giving the list
    of predictions it would produce for a date, and the cache layer counts
    how many times it is invoked.
-/

namespace FootyPredict

/-! ### Round-half-to-even (Python round) -/

/-- Round a rational to an integer, half to even (banker's rounding). -/
def rhe (y : ℚ) : ℤ :=
  if y - ⌊y⌋ < 1/2 then ⌊y⌋
  else if 1/2 < y - ⌊y⌋ then ⌊y⌋ + 1
  else if ⌊y⌋ % 2 = 0 then ⌊y⌋ else ⌊y⌋ + 1

/-- Model of Python round(x, n) on exact rationals. -/
def pyRound (x : ℚ) (n : ℕ) : ℚ := (rhe (x * 10 ^ n) : ℚ) / 10 ^ n

theorem floor_le_rhe (y : ℚ) : ⌊y⌋ ≤ rhe y := by
  unfold rhe; split_ifs <;> omega

theorem rhe_le_ceil (y : ℚ) : rhe y ≤ ⌈y⌉ := by
  have hfc : ⌊y⌋ ≤ ⌈y⌉ := Int.floor_le_ceil y
  have hlt : (1:ℚ)/2 ≤ y - ⌊y⌋ → ⌊y⌋ + 1 ≤ ⌈y⌉ := by
    intro h
    have : (⌊y⌋ : ℚ) < y := by linarith
    have := Int.lt_ceil.mpr this
    omega
  unfold rhe
  split_ifs with h1 h2 h3
  · exact hfc
  · exact hlt (by linarith)
  · exact hfc
  · exact hlt (by linarith)

theorem abs_rhe_sub (y : ℚ) : |(rhe y : ℚ) - y| ≤ 1/2 := by
  have h1 : (⌊y⌋ : ℚ) ≤ y := Int.floor_le y
  have h2 : y < ⌊y⌋ + 1 := Int.lt_floor_add_one y
  unfold rhe
  split_ifs with hc1 hc2 hc3 <;> rw [abs_le] <;> constructor <;> push_cast <;> linarith

theorem rhe_mono {x y : ℚ} (h : x ≤ y) : rhe x ≤ rhe y := by
  rcases lt_or_eq_of_le (Int.floor_mono h) with hf | hf
  · calc rhe x ≤ ⌈x⌉ := rhe_le_ceil x
      _ ≤ ⌊x⌋ + 1 := Int.ceil_le_floor_add_one x
      _ ≤ ⌊y⌋ := by omega
      _ ≤ rhe y := floor_le_rhe y
  · unfold rhe
    rw [← hf]
    split_ifs <;> first | omega | (exfalso; linarith)

theorem pyRound_mono {x y : ℚ} (n : ℕ) (h : x ≤ y) : pyRound x n ≤ pyRound y n := by
  have h10 : (0:ℚ) < 10 ^ n := by positivity
  unfold pyRound
  rw [div_le_div_iff_of_pos_right h10]
  exact_mod_cast rhe_mono (mul_le_mul_of_nonneg_right h (le_of_lt h10))

theorem abs_pyRound_sub (x : ℚ) (n : ℕ) : |pyRound x n - x| ≤ 1 / (2 * 10 ^ n) := by
  have h10 : (0:ℚ) < 10 ^ n := by positivity
  have key : pyRound x n - x = ((rhe (x * 10 ^ n) : ℚ) - x * 10 ^ n) / 10 ^ n := by
    field_simp [pyRound]
    ring
  rw [key, abs_div, abs_of_pos h10]
  rw [div_le_iff₀ h10]
  have := abs_rhe_sub (x * 10 ^ n)
  calc |(rhe (x * 10 ^ n) : ℚ) - x * 10 ^ n| ≤ 1/2 := this
    _ = 1 / (2 * 10 ^ n) * 10 ^ n := by field_simp
    _ ≤ 1 / (2 * 10 ^ n) * 10 ^ n := le_refl _

theorem le_pyRound {x : ℚ} {n : ℕ} {k : ℤ} (h : (k:ℚ) / 10 ^ n ≤ x) :
    (k:ℚ) / 10 ^ n ≤ pyRound x n := by
  have h10 : (0:ℚ) < 10 ^ n := by positivity
  unfold pyRound
  rw [div_le_div_iff_of_pos_right h10]
  have hk : (k:ℚ) ≤ x * 10 ^ n := by
    rw [div_le_iff₀ h10] at h; exact h
  have : k ≤ ⌊x * 10 ^ n⌋ := Int.le_floor.mpr hk
  exact_mod_cast le_trans this (floor_le_rhe _)

theorem pyRound_le {x : ℚ} {n : ℕ} {k : ℤ} (h : x ≤ (k:ℚ) / 10 ^ n) :
    pyRound x n ≤ (k:ℚ) / 10 ^ n := by
  have h10 : (0:ℚ) < 10 ^ n := by positivity
  unfold pyRound
  rw [div_le_div_iff_of_pos_right h10]
  have hk : x * 10 ^ n ≤ (k:ℚ) := by
    rw [le_div_iff₀ h10] at h; exact h
  have : ⌈x * 10 ^ n⌉ ≤ k := Int.ceil_le.mpr hk
  exact_mod_cast le_trans (rhe_le_ceil _) this

/-! ### Python string comparison (code-point lexicographic) -/

/-- Lexicographic strict order on character lists via code points. -/
def strLtb : List Char → List Char → Bool
  | _, [] => false
  | [], _ :: _ => true
  | a :: as, b :: bs =>
    if a.toNat < b.toNat then true
    else if b.toNat < a.toNat then false
    else strLtb as bs

/-- Python string strict less-than. -/
def pyStrLt (a b : String) : Bool := strLtb a.data b.data

/-! ### RNG model -/

/-- Abstract model of the sha256-seeded Mersenne Twister: for each seed key,
the stream of values produced by successive rng.random() calls. -/
abbrev RngAlg := String → ℕ → ℚ

/-- A seeded rng in a given state: its value stream and the index of the
next rng.random() call. -/
structure Rng where
  vals : ℕ → ℚ
  idx : ℕ

/-- Model of _seeded_rng: a fresh generator for the given key. -/
def _seeded_rng (g : RngAlg) (key : String) : Rng := { vals := g key, idx := 0 }

/-- rng.random() yields values in the interval from 0 inclusive to 1 exclusive. -/
def validStream (s : ℕ → ℚ) : Prop := ∀ i, 0 ≤ s i ∧ s i < 1

/-- A rng algorithm is valid when every seed key yields a valid stream. -/
def validAlg (g : RngAlg) : Prop := ∀ k, validStream (g k)

/-! ### Data model -/

/-- The per-fixture output record built by _to_prediction.  Field names and
order follow the dict literal of the source. -/
structure Prediction where
  home_team : String
  away_team : String
  league : String
  date : String
  p_home : ℚ
  p_draw : ℚ
  p_away : ℚ
  p_btts_yes : ℚ
  p_over_15 : ℚ
  p_over_25 : ℚ
  p_over_35 : ℚ
  avg_goals_home_last3 : ℚ
  avg_goals_away_last3 : ℚ
  top_scores : List (String × ℚ)
deriving DecidableEq

/-- JSON-like values, to state serialization shape claims. -/
inductive JVal where
  | num (q : ℚ)
  | str (s : String)
  | arr (elems : List JVal)
  | obj (fields : List (String × JVal))

/-- Serialized form of one top_scores entry. -/
def scoreEntryToJson (e : String × ℚ) : JVal :=
  .obj [("score", .str e.1), ("p", .num e.2)]

/-- Serialized form of a Prediction, mirroring the dict literal returned by
_to_prediction. -/
def predictionToJson (p : Prediction) : JVal :=
  .obj [("home_team", .str p.home_team),
        ("away_team", .str p.away_team),
        ("league", .str p.league),
        ("date", .str p.date),
        ("p_home", .num p.p_home),
        ("p_draw", .num p.p_draw),
        ("p_away", .num p.p_away),
        ("p_btts_yes", .num p.p_btts_yes),
        ("p_over_15", .num p.p_over_15),
        ("p_over_25", .num p.p_over_25),
        ("p_over_35", .num p.p_over_35),
        ("avg_goals_home_last3", .num p.avg_goals_home_last3),
        ("avg_goals_away_last3", .num p.avg_goals_away_last3),
        ("top_scores", .arr (p.top_scores.map scoreEntryToJson))]

/-- Top-level keys of a serialized object. -/
def jsonKeys : JVal → List String
  | .obj fields => fields.map Prod.fst
  | _ => []

/-! ### Helper functions of mock_api.py -/

/-- Model of _pct: clamp to the unit interval and round to 4 decimals. -/
def _pct (x : ℚ) : ℚ := max 0 (min 1 (pyRound x 4))

/-- Model of _avg_last3.  The source draws one rng.random() value; the
draw is passed explicitly here. -/
def _avg_last3 (r : ℚ) : ℚ := pyRound (1.2 + 2.0 * r) 1

/-- The candidate score list of _score_bundle. -/
def candidates : List (String × String) :=
  [("2-1", "home"), ("1-1", "draw"), ("2-0", "home"),
   ("3-1", "home"), ("1-2", "away"), ("0-0", "draw"),
   ("0-1", "away"), ("3-2", "home"), ("2-2", "draw")]

/-- The base dict lookup of _score_bundle (sides are only the three below). -/
def sideBase (side : String) : ℚ :=
  if side = "home" then 0.24 else if side = "draw" then 0.16 else 0.18

/-- The weight dict lookup of _score_bundle. -/
def sideWeight (p_home p_draw p_away : ℚ) (side : String) : ℚ :=
  if side = "home" then p_home else if side = "draw" then p_draw else p_away

/-- The out list of _score_bundle.  One rng.random() draw is consumed per
candidate, in list order. -/
def scoreRaw (rng : Rng) (p_home p_draw p_away : ℚ) : List (String × ℚ) :=
  candidates.enum.map (fun c =>
    (c.2.1, sideBase c.2.2 * (0.7 + 0.6 * rng.vals (rng.idx + c.1)) *
      sideWeight p_home p_draw p_away c.2.2 / max 0.001 (p_home + p_draw + p_away)))

/-- The top5 list of _score_bundle: sort on p with reverse=True (the stable
descending sort) and take the first five. -/
def scoreTop5 (rng : Rng) (p_home p_draw p_away : ℚ) : List (String × ℚ) :=
  (List.insertionSort (fun x y => y.2 ≤ x.2) (scoreRaw rng p_home p_draw p_away)).take 5

/-- The normalization divisor s of _score_bundle: the sum of the top five
p values, replaced by 1.0 when that sum is falsy (zero). -/
def scoreS (rng : Rng) (p_home p_draw p_away : ℚ) : ℚ :=
  let s0 := ((scoreTop5 rng p_home p_draw p_away).map Prod.snd).sum
  if s0 = 0 then 1 else s0

/-- The norm list of _score_bundle. -/
def scoreNorm (rng : Rng) (p_home p_draw p_away : ℚ) : List (String × ℚ) :=
  (scoreTop5 rng p_home p_draw p_away).map
    (fun x => (x.1, min 0.35 (x.2 / scoreS rng p_home p_draw p_away * 0.75)))

/-- Model of _score_bundle: the norm list with each p rounded to 4
decimals, as in the returned list of dicts. -/
def _score_bundle (rng : Rng) (p_home p_draw p_away : ℚ) : List (String × ℚ) :=
  (scoreNorm rng p_home p_draw p_away).map (fun x => (x.1, pyRound x.2 4))

/-- The rng seed key built by _to_prediction. -/
def predKey (league date_iso home away : String) : String :=
  league ++ "|" ++ date_iso ++ "|" ++ home ++ "|" ++ away

/-- Model of _to_prediction.  The draws r 0, r 1, ... are the successive
rng.random() calls of the source, in source order. -/
def _to_prediction (g : RngAlg) (league date_iso home away : String) : Prediction :=
  let rng := _seeded_rng g (predKey league date_iso home away)
  let r := rng.vals
  let base_home := 0.40 + 0.10 * r 0
  let base_away := 0.30 + 0.10 * r 1
  let base_draw := 1 - base_home - base_away
  let p_home := _pct base_home
  let p_away := _pct base_away
  let p_draw := _pct base_draw
  let p_btts := _pct (0.48 + 0.20 * r 2)
  let p_o15 := _pct (0.65 + 0.20 * r 3)
  let p_o25 := _pct (0.47 + 0.18 * r 4)
  let p_o35 := _pct (0.25 + 0.20 * r 5)
  let avg_home_l3 := _avg_last3 (r 6)
  let avg_away_l3 := _avg_last3 (r 7)
  let top_scores := _score_bundle { vals := r, idx := 8 } p_home p_draw p_away
  { home_team := home
    away_team := away
    league := league
    date := date_iso
    p_home := p_home
    p_draw := p_draw
    p_away := p_away
    p_btts_yes := p_btts
    p_over_15 := p_o15
    p_over_25 := p_o25
    p_over_35 := p_o35
    avg_goals_home_last3 := avg_home_l3
    avg_goals_away_last3 := avg_away_l3
    top_scores := top_scores }

/-- The teams dict of _mock_fixtures_for_date, in insertion order. -/
def leaguePools : List (String × List (String × String)) :=
  [("Eredivisie", [("Ajax", "Feyenoord"), ("PSV", "AZ"), ("Twente", "Utrecht")]),
   ("Premier League", [("Arsenal", "Chelsea"), ("Liverpool", "Man City"), ("Spurs", "Newcastle")]),
   ("La Liga", [("Real Madrid", "Barcelona"), ("Atletico", "Sevilla"), ("Valencia", "Villarreal")]),
   ("Bundesliga", [("Bayern", "Dortmund"), ("Leipzig", "Leverkusen"), ("Gladbach", "Stuttgart")]),
   ("Ligue 1", [("PSG", "Monaco"), ("Lyon", "Marseille"), ("Lille", "Nice")])]

/-- The rng seed key of _mock_fixtures_for_date. -/
def fixturesKey (date_iso : String) : String := "fixtures|" ++ date_iso

/-- The per-league loop of _mock_fixtures_for_date, threading the rng state.
Python evaluates the 60 percent coin first; only on success is the pick
drawn.  int() truncation on a nonnegative value is floor; an out-of-range
index never occurs for a valid stream (the default pair is unreachable). -/
def mockAux (g : RngAlg) (date_iso : String) :
    List (String × List (String × String)) → Rng → List Prediction
  | [], _ => []
  | (league, pool) :: rest, rng =>
    if rng.vals rng.idx < 0.6 then
      let pick := pool.getD (Int.toNat ⌊rng.vals (rng.idx + 1) * pool.length⌋) ("", "")
      _to_prediction g league date_iso pick.1 pick.2 ::
        mockAux g date_iso rest { vals := rng.vals, idx := rng.idx + 2 }
    else
      mockAux g date_iso rest { vals := rng.vals, idx := rng.idx + 1 }

/-- Model of _mock_fixtures_for_date. -/
def _mock_fixtures_for_date (g : RngAlg) (date_iso : String) : List Prediction :=
  mockAux g date_iso leaguePools (_seeded_rng g (fixturesKey date_iso))

/-! ### Cache and aggregation -/

/-- The in-memory CACHE dict, as an association list (most recent first). -/
abbrev Cache := List (String × List Prediction)

/-- The sort key comparison of _get_predictions_for_date: ascending by the
tuple (league, home_team, away_team), Python tuple and string order. -/
def tupleLe (x y : Prediction) : Bool :=
  pyStrLt x.league y.league ||
    (x.league == y.league &&
      (pyStrLt x.home_team y.home_team ||
        (x.home_team == y.home_team &&
          (pyStrLt x.away_team y.away_team || x.away_team == y.away_team))))

/-- Model of _get_predictions_for_date.  Returns the prediction list, the
updated CACHE, and how many times the upstream fetch
(_fetch_fixtures_from_api) was invoked by this call. -/
def _get_predictions_for_date (fetchApi : String → List Prediction) (g : RngAlg)
    (cache : Cache) (date_iso : String) : List Prediction × Cache × ℕ :=
  match cache.lookup date_iso with
  | some v => (v, cache, 0)
  | none =>
    let fetched := fetchApi date_iso
    let preds := if fetched.isEmpty then _mock_fixtures_for_date g date_iso else fetched
    let sorted := List.insertionSort (fun a b => tupleLe a b = true) preds
    (sorted, (date_iso, sorted) :: cache, 1)

/-- The date loop of _warm_cache, over an explicit list of date strings. -/
def warmAux (fetchApi : String → List Prediction) (g : RngAlg) :
    List String → Cache → ℕ → Cache × ℕ
  | [], cache, n => (cache, n)
  | d :: rest, cache, n =>
    let step := _get_predictions_for_date fetchApi g cache d
    warmAux fetchApi g rest step.2.1 (n + step.2.2)

/-- Model of _warm_cache.  dateAdd models strftime of start plus i days;
the loop covers today plus the next days, i in 0..days. -/
def _warm_cache (dateAdd : String → ℕ → String) (fetchApi : String → List Prediction)
    (g : RngAlg) (days : ℕ) (start : String) (cache : Cache) : Cache × ℕ :=
  warmAux fetchApi g ((List.range (days + 1)).map (dateAdd start)) cache 0

/-- Model of the refresh endpoint: the cron-token gate followed by
_warm_cache.  The error cases carry the HTTP status code; success carries
the updated cache and the upstream fetch count. -/
def refresh (cronToken : String) (xCronToken : Option String)
    (dateAdd : String → ℕ → String) (fetchApi : String → List Prediction)
    (g : RngAlg) (days : ℕ) (now : String) (cache : Cache) : Except ℕ (Cache × ℕ) :=
  if cronToken = "" then .error 400
  else if xCronToken ≠ some cronToken then .error 401
  else .ok (_warm_cache dateAdd fetchApi g days now cache)

end FootyPredict

namespace FootyPredict

/-! ### Concrete rng algorithms and collaborators used by witnesses -/

def halfG : RngAlg := fun _ _ => 1/2

def lowG : RngAlg := fun _ _ => 0.1234

def halfG3 : RngAlg := fun _ i => if i = 3 then 1/4 else 1/2

def offKeyG : RngAlg := fun k _ => if k = "zzz" then 0 else 1/2

theorem validAlg_halfG : validAlg halfG := fun _ _ => by norm_num [halfG]

def dummyPred : Prediction :=
  { home_team := "H", away_team := "A", league := "L", date := "2024-01-01",
    p_home := 1, p_draw := 0, p_away := 0, p_btts_yes := 0,
    p_over_15 := 0, p_over_25 := 0, p_over_35 := 0,
    avg_goals_home_last3 := 0, avg_goals_away_last3 := 0, top_scores := [] }

def emptyFetch : String → List Prediction := fun _ => []

def oneFetch : String → List Prediction := fun _ => [dummyPred]

def constDate : String → ℕ → String := fun s _ => s

/-! ### C1 -/

/-- C1: calling the date-cache lookup a second time returns the same list,
leaves the cache unchanged, and performs no upstream fetch. -/
theorem c1_cache_idempotent (fetchApi : String → List Prediction) (g : RngAlg)
    (cache : Cache) (d : String) :
    (_get_predictions_for_date fetchApi g
        (_get_predictions_for_date fetchApi g cache d).2.1 d).1 =
      (_get_predictions_for_date fetchApi g cache d).1 ∧
    (_get_predictions_for_date fetchApi g
        (_get_predictions_for_date fetchApi g cache d).2.1 d).2.1 =
      (_get_predictions_for_date fetchApi g cache d).2.1 ∧
    (_get_predictions_for_date fetchApi g
        (_get_predictions_for_date fetchApi g cache d).2.1 d).2.2 = 0 := by
  cases h : cache.lookup d with
  | some v => simp [_get_predictions_for_date, h]
  | none => simp [_get_predictions_for_date, h, List.lookup]

/-! ### C9 -/

theorem get_preserves_entry (fetchApi : String → List Prediction) (g : RngAlg)
    (cache : Cache) (d' d : String) (v : List Prediction) (h : cache.lookup d = some v) :
    ((_get_predictions_for_date fetchApi g cache d').2.1).lookup d = some v := by
  unfold _get_predictions_for_date
  cases hl : cache.lookup d' with
  | some w => simpa using h
  | none =>
    have hne : (d == d') = false := by
      rcases eq_or_ne d d' with rfl | hne
      · rw [h] at hl; cases hl
      · exact beq_eq_false_iff_ne.mpr hne
    simp [List.lookup, hne, h]

theorem warmAux_preserves_entry (fetchApi : String → List Prediction) (g : RngAlg)
    (dates : List String) (cache : Cache) (n : ℕ) (d : String) (v : List Prediction)
    (h : cache.lookup d = some v) :
    ((warmAux fetchApi g dates cache n).1).lookup d = some v := by
  induction dates generalizing cache n with
  | nil => simpa [warmAux] using h
  | cons x xs ih =>
    simp only [warmAux]
    exact ih _ _ (get_preserves_entry fetchApi g cache x d v h)

/-- C9 amended: warming or refreshing never touches a date that already has
a cache entry; the existing entry is kept unchanged. -/
theorem c9_warm_keeps_existing_entry (dateAdd : String → ℕ → String)
    (fetchApi : String → List Prediction) (g : RngAlg) (days : ℕ) (start : String)
    (cache : Cache) (d : String) (v : List Prediction) (h : cache.lookup d = some v) :
    ((_warm_cache dateAdd fetchApi g days start cache).1).lookup d = some v :=
  warmAux_preserves_entry fetchApi g _ cache 0 d v h

/-- C9 witness: a cached date keeps its entry across a warm run. -/
theorem c9_witness :
    ([("2024-01-01", [dummyPred])] : Cache).lookup "2024-01-01" = some [dummyPred] ∧
    ((_warm_cache constDate oneFetch halfG 2 "2024-01-01"
        [("2024-01-01", [dummyPred])]).1).lookup "2024-01-01" = some [dummyPred] :=
  ⟨rfl, c9_warm_keeps_existing_entry constDate oneFetch halfG 2 "2024-01-01" _ _ _ rfl⟩

/-- C9 counterexample: a refresh over a date that already has a (stale,
empty) cache entry leaves the entry in place and performs zero upstream
fetches, although a fresh computation for that date yields a different,
nonempty list. -/
theorem c9_counterexample :
    refresh "tok" (some "tok") constDate oneFetch halfG 0 "2024-01-01"
        [("2024-01-01", [])] = .ok ([("2024-01-01", [])], 0) ∧
    (_get_predictions_for_date oneFetch halfG [] "2024-01-01").1 = [dummyPred] := by
  constructor
  · rfl
  · simp [_get_predictions_for_date, oneFetch, List.insertionSort, List.orderedInsert]

/-! ### C2 -/

/-- C2 amended: when the upstream fixture source yields the empty list for
an uncached date, the result is the sorted mock fallback list, the entry is
cached, and a second call returns it with zero upstream fetches. -/
theorem c2_empty_fetch_falls_back_to_mock (fetchApi : String → List Prediction)
    (g : RngAlg) (cache : Cache) (d : String)
    (hfetch : fetchApi d = []) (hcache : cache.lookup d = none) :
    (_get_predictions_for_date fetchApi g cache d).1 =
      List.insertionSort (fun a b => tupleLe a b = true) (_mock_fixtures_for_date g d) ∧
    (_get_predictions_for_date fetchApi g cache d).2.1 =
      (d, List.insertionSort (fun a b => tupleLe a b = true)
        (_mock_fixtures_for_date g d)) :: cache ∧
    (_get_predictions_for_date fetchApi g
        (_get_predictions_for_date fetchApi g cache d).2.1 d).1 =
      (_get_predictions_for_date fetchApi g cache d).1 ∧
    (_get_predictions_for_date fetchApi g
        (_get_predictions_for_date fetchApi g cache d).2.1 d).2.2 = 0 := by
  simp [_get_predictions_for_date, hcache, hfetch, List.lookup]

/-- C2 witness at a concrete date and rng algorithm. -/
theorem c2_witness :
    emptyFetch "2024-01-01" = [] ∧
    (_get_predictions_for_date emptyFetch halfG [] "2024-01-01").1 =
      List.insertionSort (fun a b => tupleLe a b = true)
        (_mock_fixtures_for_date halfG "2024-01-01") :=
  ⟨rfl, (c2_empty_fetch_falls_back_to_mock emptyFetch halfG [] "2024-01-01" rfl rfl).1⟩

/-- C2 counterexample: with the upstream source yielding the empty list the
service does not return the empty list; the mock fallback produces five
fixtures for this date under this rng stream. -/
theorem c2_counterexample :
    (_get_predictions_for_date emptyFetch halfG [] "2024-01-01").1 ≠ [] := by
  have hr : (_get_predictions_for_date emptyFetch halfG [] "2024-01-01").1 =
      List.insertionSort (fun a b => tupleLe a b = true)
        (_mock_fixtures_for_date halfG "2024-01-01") := by
    simp [_get_predictions_for_date, emptyFetch, List.lookup]
  have hlen : (_mock_fixtures_for_date halfG "2024-01-01").length = 5 := by
    norm_num [_mock_fixtures_for_date, mockAux, leaguePools, _seeded_rng, halfG]
  intro hcontra
  rw [hr] at hcontra
  have := congrArg List.length hcontra
  rw [List.length_insertionSort, hlen] at this
  simp at this

end FootyPredict

namespace FootyPredict

/-! ### Derived facts about rounding and _pct -/

theorem pyRound_nonneg {x : ℚ} (n : ℕ) (h : 0 ≤ x) : 0 ≤ pyRound x n := by
  have h0 : ((0:ℤ):ℚ)/10^n ≤ x := by simpa using h
  simpa using le_pyRound h0

theorem pct_nonneg (x : ℚ) : 0 ≤ _pct x := le_max_left 0 _

theorem pct_le_one (x : ℚ) : _pct x ≤ 1 :=
  max_le (by norm_num) (min_le_left 1 _)

theorem pct_eq_pyRound {x : ℚ} (h0 : 0 ≤ pyRound x 4) (h1 : pyRound x 4 ≤ 1) :
    _pct x = pyRound x 4 := by
  unfold _pct
  rw [min_eq_right h1, max_eq_right h0]

theorem pct_bounds (a b : ℤ) {x : ℚ} (h1 : (a:ℚ)/10^4 ≤ x) (h2 : x ≤ (b:ℚ)/10^4)
    (ha : 0 ≤ a) (hb : b ≤ 10000) :
    (a:ℚ)/10^4 ≤ _pct x ∧ _pct x ≤ (b:ℚ)/10^4 := by
  have hge : (a:ℚ)/10^4 ≤ pyRound x 4 := le_pyRound h1
  have hle : pyRound x 4 ≤ (b:ℚ)/10^4 := pyRound_le h2
  have hza : (0:ℚ) ≤ (a:ℚ)/10^4 := by
    apply div_nonneg _ (by norm_num)
    exact_mod_cast ha
  have hzb : ((b:ℚ))/10^4 ≤ 1 := by
    rw [div_le_one (by norm_num)]
    exact_mod_cast le_trans hb (by norm_num)
  rw [pct_eq_pyRound (le_trans hza hge) (le_trans hle hzb)]
  exact ⟨hge, hle⟩

theorem abs_pct_sub {x : ℚ} (h0 : 0 ≤ x) (h1 : x ≤ 1) : |_pct x - x| ≤ 1/20000 := by
  have hp0 : 0 ≤ pyRound x 4 := pyRound_nonneg 4 h0
  have hp1 : pyRound x 4 ≤ 1 := by
    have hx : x ≤ ((10000:ℤ):ℚ)/10^4 := by push_cast; norm_num; exact h1
    have := pyRound_le hx
    push_cast at this
    norm_num at this
    exact this
  rw [pct_eq_pyRound hp0 hp1]
  have := abs_pyRound_sub x 4
  norm_num at this
  exact this

/-! ### Field characterizations of _to_prediction -/

theorem to_prediction_p_home (g : RngAlg) (lg dt hm aw : String) :
    (_to_prediction g lg dt hm aw).p_home =
      _pct (0.40 + 0.10 * g (predKey lg dt hm aw) 0) := rfl

theorem to_prediction_p_away (g : RngAlg) (lg dt hm aw : String) :
    (_to_prediction g lg dt hm aw).p_away =
      _pct (0.30 + 0.10 * g (predKey lg dt hm aw) 1) := rfl

theorem to_prediction_p_draw (g : RngAlg) (lg dt hm aw : String) :
    (_to_prediction g lg dt hm aw).p_draw =
      _pct (1 - (0.40 + 0.10 * g (predKey lg dt hm aw) 0)
              - (0.30 + 0.10 * g (predKey lg dt hm aw) 1)) := rfl

theorem to_prediction_p_btts (g : RngAlg) (lg dt hm aw : String) :
    (_to_prediction g lg dt hm aw).p_btts_yes =
      _pct (0.48 + 0.20 * g (predKey lg dt hm aw) 2) := rfl

theorem to_prediction_p_over_15 (g : RngAlg) (lg dt hm aw : String) :
    (_to_prediction g lg dt hm aw).p_over_15 =
      _pct (0.65 + 0.20 * g (predKey lg dt hm aw) 3) := rfl

theorem to_prediction_p_over_25 (g : RngAlg) (lg dt hm aw : String) :
    (_to_prediction g lg dt hm aw).p_over_25 =
      _pct (0.47 + 0.18 * g (predKey lg dt hm aw) 4) := rfl

theorem to_prediction_p_over_35 (g : RngAlg) (lg dt hm aw : String) :
    (_to_prediction g lg dt hm aw).p_over_35 =
      _pct (0.25 + 0.20 * g (predKey lg dt hm aw) 5) := rfl

theorem to_prediction_avg_home (g : RngAlg) (lg dt hm aw : String) :
    (_to_prediction g lg dt hm aw).avg_goals_home_last3 =
      _avg_last3 (g (predKey lg dt hm aw) 6) := rfl

theorem to_prediction_avg_away (g : RngAlg) (lg dt hm aw : String) :
    (_to_prediction g lg dt hm aw).avg_goals_away_last3 =
      _avg_last3 (g (predKey lg dt hm aw) 7) := rfl

theorem to_prediction_top_scores (g : RngAlg) (lg dt hm aw : String) :
    (_to_prediction g lg dt hm aw).top_scores =
      _score_bundle { vals := g (predKey lg dt hm aw), idx := 8 }
        (_pct (0.40 + 0.10 * g (predKey lg dt hm aw) 0))
        (_pct (1 - (0.40 + 0.10 * g (predKey lg dt hm aw) 0)
                 - (0.30 + 0.10 * g (predKey lg dt hm aw) 1)))
        (_pct (0.30 + 0.10 * g (predKey lg dt hm aw) 1)) := rfl

/-! ### C3 -/

theorem avg_last3_bounds {r : ℚ} (h0 : 0 ≤ r) (h1 : r < 1) :
    1.2 ≤ _avg_last3 r ∧ _avg_last3 r ≤ 3.2 := by
  unfold _avg_last3
  constructor
  · have hlo : ((12:ℤ):ℚ)/10^1 ≤ 1.2 + 2.0 * r := by push_cast; norm_num; linarith
    have := le_pyRound hlo
    push_cast at this
    norm_num at this ⊢
    linarith
  · have hhi : 1.2 + 2.0 * r ≤ ((32:ℤ):ℚ)/10^1 := by push_cast; norm_num; linarith
    have := pyRound_le hhi
    push_cast at this
    norm_num at this ⊢
    linarith

/-- C3 amended: the mock service has no match-history input at all; the
avg_goals fields are seeded pseudo-random values round(1.2 + 2*r, 1) and
always lie in the closed interval from 1.2 to 3.2 (the fixed constant 1.2
is only attained for draws below 0.025). -/
theorem c3_avg_fields_range (g : RngAlg) (hg : validAlg g) (lg dt hm aw : String) :
    1.2 ≤ (_to_prediction g lg dt hm aw).avg_goals_home_last3 ∧
    (_to_prediction g lg dt hm aw).avg_goals_home_last3 ≤ 3.2 ∧
    1.2 ≤ (_to_prediction g lg dt hm aw).avg_goals_away_last3 ∧
    (_to_prediction g lg dt hm aw).avg_goals_away_last3 ≤ 3.2 := by
  rw [to_prediction_avg_home, to_prediction_avg_away]
  have h6 := hg (predKey lg dt hm aw) 6
  have h7 := hg (predKey lg dt hm aw) 7
  have b6 := avg_last3_bounds h6.1 h6.2
  have b7 := avg_last3_bounds h7.1 h7.2
  exact ⟨b6.1, b6.2, b7.1, b7.2⟩

/-- C3 witness: the bounds hold at a concrete prediction. -/
theorem c3_witness :
    1.2 ≤ (_to_prediction halfG "Eredivisie" "2024-01-01" "Ajax" "Feyenoord").avg_goals_home_last3 ∧
    (_to_prediction halfG "Eredivisie" "2024-01-01" "Ajax" "Feyenoord").avg_goals_home_last3 ≤ 3.2 ∧
    1.2 ≤ (_to_prediction halfG "Eredivisie" "2024-01-01" "Ajax" "Feyenoord").avg_goals_away_last3 ∧
    (_to_prediction halfG "Eredivisie" "2024-01-01" "Ajax" "Feyenoord").avg_goals_away_last3 ≤ 3.2 :=
  c3_avg_fields_range halfG validAlg_halfG "Eredivisie" "2024-01-01" "Ajax" "Feyenoord"

/-- C3 counterexample: with history always unavailable the claim would
force the value 1.2, but the draw one half gives 2.2. -/
theorem c3_counterexample :
    (_to_prediction halfG "Eredivisie" "2024-01-01" "Ajax" "Feyenoord").avg_goals_home_last3 ≠ 1.2 := by
  have hv : (_to_prediction halfG "Eredivisie" "2024-01-01" "Ajax" "Feyenoord").avg_goals_home_last3 = 2.2 := by
    rw [to_prediction_avg_home]
    norm_num [halfG, _avg_last3, pyRound, rhe]
  rw [hv]
  norm_num

end FootyPredict

namespace FootyPredict

/-! ### C4 -/

/-- C4 amended: the three over-line probabilities are independent uniform
pseudo-random draws pushed through _pct, not a Poisson tail computation:
p_over_15 is _pct of 0.65 + 0.20 r3, p_over_25 is _pct of 0.47 + 0.18 r4,
p_over_35 is _pct of 0.25 + 0.20 r5, and for a valid rng algorithm they lie
in the ranges 0.65 to 0.85, 0.47 to 0.65 and 0.25 to 0.45 respectively,
independently of the avg_goals fields. -/
theorem c4_over_lines_are_uniform_draws (g : RngAlg) (hg : validAlg g)
    (lg dt hm aw : String) :
    (_to_prediction g lg dt hm aw).p_over_15 =
      _pct (0.65 + 0.20 * g (predKey lg dt hm aw) 3) ∧
    (_to_prediction g lg dt hm aw).p_over_25 =
      _pct (0.47 + 0.18 * g (predKey lg dt hm aw) 4) ∧
    (_to_prediction g lg dt hm aw).p_over_35 =
      _pct (0.25 + 0.20 * g (predKey lg dt hm aw) 5) ∧
    0.65 ≤ (_to_prediction g lg dt hm aw).p_over_15 ∧
    (_to_prediction g lg dt hm aw).p_over_15 ≤ 0.85 ∧
    0.47 ≤ (_to_prediction g lg dt hm aw).p_over_25 ∧
    (_to_prediction g lg dt hm aw).p_over_25 ≤ 0.65 ∧
    0.25 ≤ (_to_prediction g lg dt hm aw).p_over_35 ∧
    (_to_prediction g lg dt hm aw).p_over_35 ≤ 0.45 := by
  have h3 := hg (predKey lg dt hm aw) 3
  have h4 := hg (predKey lg dt hm aw) 4
  have h5 := hg (predKey lg dt hm aw) 5
  rw [to_prediction_p_over_15, to_prediction_p_over_25, to_prediction_p_over_35]
  refine ⟨rfl, rfl, rfl, ?_⟩
  have b15 := pct_bounds 6500 8500
    (show ((6500:ℤ):ℚ)/10^4 ≤ 0.65 + 0.20 * g (predKey lg dt hm aw) 3 by push_cast; norm_num; linarith [h3.1])
    (show 0.65 + 0.20 * g (predKey lg dt hm aw) 3 ≤ ((8500:ℤ):ℚ)/10^4 by push_cast; norm_num; linarith [h3.2])
    (by norm_num) (by norm_num)
  have b25 := pct_bounds 4700 6500
    (show ((4700:ℤ):ℚ)/10^4 ≤ 0.47 + 0.18 * g (predKey lg dt hm aw) 4 by push_cast; norm_num; linarith [h4.1])
    (show 0.47 + 0.18 * g (predKey lg dt hm aw) 4 ≤ ((6500:ℤ):ℚ)/10^4 by push_cast; norm_num; linarith [h4.2])
    (by norm_num) (by norm_num)
  have b35 := pct_bounds 2500 4500
    (show ((2500:ℤ):ℚ)/10^4 ≤ 0.25 + 0.20 * g (predKey lg dt hm aw) 5 by push_cast; norm_num; linarith [h5.1])
    (show 0.25 + 0.20 * g (predKey lg dt hm aw) 5 ≤ ((4500:ℤ):ℚ)/10^4 by push_cast; norm_num; linarith [h5.2])
    (by norm_num) (by norm_num)
  push_cast at b15 b25 b35
  norm_num at b15 b25 b35
  norm_num
  exact ⟨b15.1, b15.2, b25.1, b25.2, b35.1, b35.2⟩

/-- C4 witness at a concrete prediction. -/
theorem c4_witness :
    (_to_prediction halfG "Eredivisie" "2024-01-01" "Ajax" "Feyenoord").p_over_15 =
      _pct (0.65 + 0.20 * halfG (predKey "Eredivisie" "2024-01-01" "Ajax" "Feyenoord") 3) ∧
    0.65 ≤ (_to_prediction halfG "Eredivisie" "2024-01-01" "Ajax" "Feyenoord").p_over_15 ∧
    (_to_prediction halfG "Eredivisie" "2024-01-01" "Ajax" "Feyenoord").p_over_15 ≤ 0.85 := by
  have h := c4_over_lines_are_uniform_draws halfG validAlg_halfG "Eredivisie" "2024-01-01" "Ajax" "Feyenoord"
  exact ⟨h.1, h.2.2.2.1, h.2.2.2.2.1⟩

/-- C4 counterexample: two rng algorithms that agree on every draw except
the over-1.5 draw produce predictions with identical goal-rate fields but
different over-1.5 probabilities, so no function of the goal rates (in
particular not the Poisson tail formula of the claim) can describe the
reported over-line probability. -/
theorem c4_counterexample :
    (_to_prediction halfG "Eredivisie" "2024-01-01" "Ajax" "Feyenoord").avg_goals_home_last3 =
      (_to_prediction halfG3 "Eredivisie" "2024-01-01" "Ajax" "Feyenoord").avg_goals_home_last3 ∧
    (_to_prediction halfG "Eredivisie" "2024-01-01" "Ajax" "Feyenoord").avg_goals_away_last3 =
      (_to_prediction halfG3 "Eredivisie" "2024-01-01" "Ajax" "Feyenoord").avg_goals_away_last3 ∧
    (_to_prediction halfG "Eredivisie" "2024-01-01" "Ajax" "Feyenoord").p_over_15 ≠
      (_to_prediction halfG3 "Eredivisie" "2024-01-01" "Ajax" "Feyenoord").p_over_15 := by
  refine ⟨rfl, rfl, ?_⟩
  have h1 : (_to_prediction halfG "Eredivisie" "2024-01-01" "Ajax" "Feyenoord").p_over_15 = 0.75 := by
    rw [to_prediction_p_over_15]
    norm_num [halfG, _pct, pyRound, rhe]
  have h2 : (_to_prediction halfG3 "Eredivisie" "2024-01-01" "Ajax" "Feyenoord").p_over_15 = 0.7 := by
    rw [to_prediction_p_over_15]
    norm_num [halfG3, _pct, pyRound, rhe]
  rw [h1, h2]
  norm_num

/-! ### C5 -/

/-- C5 amended: the three outcome probabilities are each individually
rounded to four decimals with no joint normalization, so their sum is
within 1.5e-4 of 1 (not within floating-point tolerance). -/
theorem c5_outcome_sum_near_one (g : RngAlg) (hg : validAlg g)
    (lg dt hm aw : String) :
    |(_to_prediction g lg dt hm aw).p_home + (_to_prediction g lg dt hm aw).p_draw +
        (_to_prediction g lg dt hm aw).p_away - 1| ≤ 3/20000 := by
  have h0 := hg (predKey lg dt hm aw) 0
  have h1 := hg (predKey lg dt hm aw) 1
  rw [to_prediction_p_home, to_prediction_p_draw, to_prediction_p_away]
  set r0 := g (predKey lg dt hm aw) 0 with hr0
  set r1 := g (predKey lg dt hm aw) 1 with hr1
  have hbh : (0:ℚ) ≤ 0.40 + 0.10 * r0 ∧ (0.40 + 0.10 * r0 : ℚ) ≤ 1 := by
    constructor <;> [linarith [h0.1]; linarith [h0.2]]
  have hba : (0:ℚ) ≤ 0.30 + 0.10 * r1 ∧ (0.30 + 0.10 * r1 : ℚ) ≤ 1 := by
    constructor <;> [linarith [h1.1]; linarith [h1.2]]
  have hbd : (0:ℚ) ≤ 1 - (0.40 + 0.10 * r0) - (0.30 + 0.10 * r1) ∧
      (1 - (0.40 + 0.10 * r0) - (0.30 + 0.10 * r1) : ℚ) ≤ 1 := by
    constructor
    · linarith [h0.2, h1.2]
    · linarith [h0.1, h1.1]
  have e1 := abs_pct_sub hbh.1 hbh.2
  have e2 := abs_pct_sub hbd.1 hbd.2
  have e3 := abs_pct_sub hba.1 hba.2
  rw [abs_le] at e1 e2 e3 ⊢
  constructor <;> linarith [e1.1, e1.2, e2.1, e2.2, e3.1, e3.2]

/-- C5 witness at a concrete prediction. -/
theorem c5_witness :
    |(_to_prediction halfG "Eredivisie" "2024-01-01" "Ajax" "Feyenoord").p_home +
        (_to_prediction halfG "Eredivisie" "2024-01-01" "Ajax" "Feyenoord").p_draw +
        (_to_prediction halfG "Eredivisie" "2024-01-01" "Ajax" "Feyenoord").p_away - 1| ≤ 3/20000 :=
  c5_outcome_sum_near_one halfG validAlg_halfG "Eredivisie" "2024-01-01" "Ajax" "Feyenoord"

/-- C5 counterexample: with every draw equal to 0.1234 the three reported
outcome probabilities sum to exactly 0.9999, which differs from 1 by a full
rounding quantum of 1e-4, far beyond floating-point tolerance, and no
normalization is applied. -/
theorem c5_counterexample :
    (_to_prediction lowG "Eredivisie" "2024-01-01" "Ajax" "Feyenoord").p_home +
        (_to_prediction lowG "Eredivisie" "2024-01-01" "Ajax" "Feyenoord").p_draw +
        (_to_prediction lowG "Eredivisie" "2024-01-01" "Ajax" "Feyenoord").p_away = 0.9999 ∧
    (_to_prediction lowG "Eredivisie" "2024-01-01" "Ajax" "Feyenoord").p_home +
        (_to_prediction lowG "Eredivisie" "2024-01-01" "Ajax" "Feyenoord").p_draw +
        (_to_prediction lowG "Eredivisie" "2024-01-01" "Ajax" "Feyenoord").p_away ≠ 1 := by
  have hh : (_to_prediction lowG "Eredivisie" "2024-01-01" "Ajax" "Feyenoord").p_home = 0.4123 := by
    rw [to_prediction_p_home]
    norm_num [lowG, _pct, pyRound, rhe]
  have hd : (_to_prediction lowG "Eredivisie" "2024-01-01" "Ajax" "Feyenoord").p_draw = 0.2753 := by
    rw [to_prediction_p_draw]
    norm_num [lowG, _pct, pyRound, rhe]
  have ha : (_to_prediction lowG "Eredivisie" "2024-01-01" "Ajax" "Feyenoord").p_away = 0.3123 := by
    rw [to_prediction_p_away]
    norm_num [lowG, _pct, pyRound, rhe]
  rw [hh, hd, ha]
  norm_num

end FootyPredict

namespace FootyPredict

/-! ### Score bundle facts -/

instance instTransScoreDesc : IsTrans (String × ℚ) (fun x y => y.2 ≤ x.2) :=
  ⟨fun _ _ _ hab hbc => le_trans hbc hab⟩

instance instTotalScoreDesc : IsTotal (String × ℚ) (fun x y => y.2 ≤ x.2) :=
  ⟨fun a b => le_total b.2 a.2⟩

theorem scoreRaw_nonneg (rng : Rng) (ph pd pa : ℚ) (hs : validStream rng.vals)
    (h0 : 0 ≤ ph) (h1 : 0 ≤ pd) (h2 : 0 ≤ pa) :
    ∀ x ∈ scoreRaw rng ph pd pa, 0 ≤ x.2 := by
  intro x hx
  rcases List.mem_map.mp hx with ⟨c, hc, rfl⟩
  dsimp only
  apply div_nonneg
  · apply mul_nonneg
    apply mul_nonneg
    · unfold sideBase; split_ifs <;> norm_num
    · have := (hs (rng.idx + c.1)).1; linarith
    · unfold sideWeight; split_ifs <;> assumption
  · exact le_of_lt (lt_of_lt_of_le (by norm_num) (le_max_left 0.001 _))

theorem scoreTop5_subset (rng : Rng) (ph pd pa : ℚ) :
    ∀ x ∈ scoreTop5 rng ph pd pa, x ∈ scoreRaw rng ph pd pa := by
  intro x hx
  have h1 : x ∈ List.insertionSort (fun x y => y.2 ≤ x.2) (scoreRaw rng ph pd pa) :=
    (List.take_sublist 5 _).subset hx
  exact (List.perm_insertionSort _ _).subset h1

theorem scoreS_pos (rng : Rng) (ph pd pa : ℚ) (hs : validStream rng.vals)
    (h0 : 0 ≤ ph) (h1 : 0 ≤ pd) (h2 : 0 ≤ pa) :
    0 < scoreS rng ph pd pa := by
  simp only [scoreS]
  have hsum : 0 ≤ ((scoreTop5 rng ph pd pa).map Prod.snd).sum := by
    apply List.sum_nonneg
    intro q hq
    rcases List.mem_map.mp hq with ⟨x, hx, rfl⟩
    exact scoreRaw_nonneg rng ph pd pa hs h0 h1 h2 x (scoreTop5_subset rng ph pd pa x hx)
  split_ifs with hz
  · norm_num
  · exact lt_of_le_of_ne hsum (Ne.symm hz)

theorem scoreNorm_bounds (rng : Rng) (ph pd pa : ℚ) (hs : validStream rng.vals)
    (h0 : 0 ≤ ph) (h1 : 0 ≤ pd) (h2 : 0 ≤ pa) :
    ∀ x ∈ scoreNorm rng ph pd pa, 0 ≤ x.2 ∧ x.2 ≤ 0.35 := by
  intro x hx
  rcases List.mem_map.mp hx with ⟨y, hy, rfl⟩
  have hy0 : 0 ≤ y.2 :=
    scoreRaw_nonneg rng ph pd pa hs h0 h1 h2 y (scoreTop5_subset rng ph pd pa y hy)
  have hspos := scoreS_pos rng ph pd pa hs h0 h1 h2
  constructor
  · apply le_min (by norm_num)
    apply mul_nonneg (div_nonneg hy0 (le_of_lt hspos)) (by norm_num)
  · exact min_le_left _ _

theorem score_bundle_bounds (rng : Rng) (ph pd pa : ℚ) (hs : validStream rng.vals)
    (h0 : 0 ≤ ph) (h1 : 0 ≤ pd) (h2 : 0 ≤ pa) :
    ∀ e ∈ _score_bundle rng ph pd pa, 0 ≤ e.2 ∧ e.2 ≤ 0.35 := by
  intro e he
  rcases List.mem_map.mp he with ⟨x, hx, rfl⟩
  have hb := scoreNorm_bounds rng ph pd pa hs h0 h1 h2 x hx
  dsimp only
  constructor
  · exact pyRound_nonneg 4 hb.1
  · have hk : x.2 ≤ ((3500:ℤ):ℚ)/10^4 := by
      push_cast
      norm_num
      exact le_trans hb.2 (by norm_num)
    have := pyRound_le hk
    push_cast at this
    norm_num at this ⊢
    exact this

theorem score_bundle_sorted (rng : Rng) (ph pd pa : ℚ) (hs : validStream rng.vals)
    (h0 : 0 ≤ ph) (h1 : 0 ≤ pd) (h2 : 0 ≤ pa) :
    (_score_bundle rng ph pd pa).Pairwise (fun x y => y.2 ≤ x.2) := by
  have hspos := scoreS_pos rng ph pd pa hs h0 h1 h2
  have hsorted : (List.insertionSort (fun x y => y.2 ≤ x.2)
      (scoreRaw rng ph pd pa)).Pairwise (fun x y => y.2 ≤ x.2) :=
    List.sorted_insertionSort _ _
  have htop : (scoreTop5 rng ph pd pa).Pairwise (fun x y => y.2 ≤ x.2) :=
    List.Pairwise.sublist (List.take_sublist 5 _) hsorted
  have hnorm : (scoreNorm rng ph pd pa).Pairwise (fun x y => y.2 ≤ x.2) := by
    apply List.Pairwise.map _ _ htop
    intro a b hab
    dsimp only
    apply min_le_min (le_refl _)
    apply mul_le_mul_of_nonneg_right _ (by norm_num)
    rw [div_le_div_iff_of_pos_right hspos]
    exact hab
  apply List.Pairwise.map _ _ hnorm
  intro a b hab
  exact pyRound_mono 4 hab

theorem score_bundle_length (rng : Rng) (ph pd pa : ℚ) :
    (_score_bundle rng ph pd pa).length ≤ 5 := by
  unfold _score_bundle scoreNorm scoreTop5
  simp [List.length_take]

theorem score_bundle_labels_nodup (rng : Rng) (ph pd pa : ℚ) :
    ((_score_bundle rng ph pd pa).map Prod.fst).Nodup := by
  have h1 : (_score_bundle rng ph pd pa).map Prod.fst =
      (scoreTop5 rng ph pd pa).map Prod.fst := by
    unfold _score_bundle scoreNorm
    simp [List.map_map, Function.comp_def]
  have h4 : (scoreRaw rng ph pd pa).map Prod.fst = candidates.map Prod.fst := rfl
  have h3 : ((List.insertionSort (fun x y => y.2 ≤ x.2) (scoreRaw rng ph pd pa)).map
      Prod.fst).Perm ((scoreRaw rng ph pd pa).map Prod.fst) :=
    (List.perm_insertionSort _ _).map _
  have h5 : (candidates.map Prod.fst).Nodup := by decide
  have h6 : ((List.insertionSort (fun x y => y.2 ≤ x.2) (scoreRaw rng ph pd pa)).map
      Prod.fst).Nodup := h3.nodup_iff.mpr (h4 ▸ h5)
  rw [h1]
  unfold scoreTop5
  rw [List.map_take]
  exact List.Nodup.sublist (List.take_sublist 5 _) h6

/-! ### C6 -/

/-- C6: the top_scores list of every Prediction is sorted by nonincreasing
probability, has length at most 5, and contains no duplicate score labels. -/
theorem c6_top_scores_shape (g : RngAlg) (hg : validAlg g) (lg dt hm aw : String) :
    ((_to_prediction g lg dt hm aw).top_scores).Pairwise (fun x y => y.2 ≤ x.2) ∧
    (_to_prediction g lg dt hm aw).top_scores.length ≤ 5 ∧
    (((_to_prediction g lg dt hm aw).top_scores).map Prod.fst).Nodup := by
  rw [to_prediction_top_scores]
  have hs : validStream (({ vals := g (predKey lg dt hm aw), idx := 8 } : Rng).vals) :=
    hg (predKey lg dt hm aw)
  refine ⟨score_bundle_sorted _ _ _ _ hs (pct_nonneg _) (pct_nonneg _) (pct_nonneg _),
    score_bundle_length _ _ _ _, score_bundle_labels_nodup _ _ _ _⟩

/-- C6 witness at a concrete prediction. -/
theorem c6_witness :
    ((_to_prediction halfG "Eredivisie" "2024-01-01" "Ajax" "Feyenoord").top_scores).Pairwise
      (fun x y => y.2 ≤ x.2) ∧
    (_to_prediction halfG "Eredivisie" "2024-01-01" "Ajax" "Feyenoord").top_scores.length ≤ 5 ∧
    (((_to_prediction halfG "Eredivisie" "2024-01-01" "Ajax" "Feyenoord").top_scores).map
      Prod.fst).Nodup :=
  c6_top_scores_shape halfG validAlg_halfG "Eredivisie" "2024-01-01" "Ajax" "Feyenoord"

/-! ### C7 -/

/-- C7: every probability field of a Prediction (the three outcome
probabilities, both-teams-to-score, the three over-line probabilities, and
the p of every top_scores entry) lies in the closed unit interval. -/
theorem c7_probabilities_in_unit_interval (g : RngAlg) (hg : validAlg g)
    (lg dt hm aw : String) :
    (0 ≤ (_to_prediction g lg dt hm aw).p_home ∧ (_to_prediction g lg dt hm aw).p_home ≤ 1) ∧
    (0 ≤ (_to_prediction g lg dt hm aw).p_draw ∧ (_to_prediction g lg dt hm aw).p_draw ≤ 1) ∧
    (0 ≤ (_to_prediction g lg dt hm aw).p_away ∧ (_to_prediction g lg dt hm aw).p_away ≤ 1) ∧
    (0 ≤ (_to_prediction g lg dt hm aw).p_btts_yes ∧ (_to_prediction g lg dt hm aw).p_btts_yes ≤ 1) ∧
    (0 ≤ (_to_prediction g lg dt hm aw).p_over_15 ∧ (_to_prediction g lg dt hm aw).p_over_15 ≤ 1) ∧
    (0 ≤ (_to_prediction g lg dt hm aw).p_over_25 ∧ (_to_prediction g lg dt hm aw).p_over_25 ≤ 1) ∧
    (0 ≤ (_to_prediction g lg dt hm aw).p_over_35 ∧ (_to_prediction g lg dt hm aw).p_over_35 ≤ 1) ∧
    (∀ e ∈ (_to_prediction g lg dt hm aw).top_scores, 0 ≤ e.2 ∧ e.2 ≤ 1) := by
  refine ⟨⟨?_, ?_⟩, ⟨?_, ?_⟩, ⟨?_, ?_⟩, ⟨?_, ?_⟩, ⟨?_, ?_⟩, ⟨?_, ?_⟩, ⟨?_, ?_⟩, ?_⟩
  · rw [to_prediction_p_home]; exact pct_nonneg _
  · rw [to_prediction_p_home]; exact pct_le_one _
  · rw [to_prediction_p_draw]; exact pct_nonneg _
  · rw [to_prediction_p_draw]; exact pct_le_one _
  · rw [to_prediction_p_away]; exact pct_nonneg _
  · rw [to_prediction_p_away]; exact pct_le_one _
  · rw [to_prediction_p_btts]; exact pct_nonneg _
  · rw [to_prediction_p_btts]; exact pct_le_one _
  · rw [to_prediction_p_over_15]; exact pct_nonneg _
  · rw [to_prediction_p_over_15]; exact pct_le_one _
  · rw [to_prediction_p_over_25]; exact pct_nonneg _
  · rw [to_prediction_p_over_25]; exact pct_le_one _
  · rw [to_prediction_p_over_35]; exact pct_nonneg _
  · rw [to_prediction_p_over_35]; exact pct_le_one _
  · rw [to_prediction_top_scores]
    intro e he
    have hs : validStream (({ vals := g (predKey lg dt hm aw), idx := 8 } : Rng).vals) :=
      hg (predKey lg dt hm aw)
    have hb := score_bundle_bounds _ _ _ _ hs (pct_nonneg _) (pct_nonneg _) (pct_nonneg _) e he
    exact ⟨hb.1, le_trans hb.2 (by norm_num)⟩

/-- C7 witness at a concrete prediction. -/
theorem c7_witness :
    (0 ≤ (_to_prediction halfG "Eredivisie" "2024-01-01" "Ajax" "Feyenoord").p_home ∧
      (_to_prediction halfG "Eredivisie" "2024-01-01" "Ajax" "Feyenoord").p_home ≤ 1) ∧
    (0 ≤ (_to_prediction halfG "Eredivisie" "2024-01-01" "Ajax" "Feyenoord").p_btts_yes ∧
      (_to_prediction halfG "Eredivisie" "2024-01-01" "Ajax" "Feyenoord").p_btts_yes ≤ 1) :=
  ⟨(c7_probabilities_in_unit_interval halfG validAlg_halfG "Eredivisie" "2024-01-01" "Ajax" "Feyenoord").1,
   (c7_probabilities_in_unit_interval halfG validAlg_halfG "Eredivisie" "2024-01-01" "Ajax" "Feyenoord").2.2.2.1⟩

end FootyPredict

namespace FootyPredict

/-! ### C8 -/

/-- C8 amended: a Prediction serializes to a flat object whose keys are
exactly home_team, away_team, league, date, p_home, p_draw, p_away,
p_btts_yes, p_over_15, p_over_25, p_over_35, avg_goals_home_last3,
avg_goals_away_last3 and top_scores (the over-line keys carry no second
underscore), with top_scores a list of objects with keys score and p. -/
theorem c8_serialization_shape (p : Prediction) (e : String × ℚ) :
    jsonKeys (predictionToJson p) =
      ["home_team", "away_team", "league", "date", "p_home", "p_draw", "p_away",
       "p_btts_yes", "p_over_15", "p_over_25", "p_over_35",
       "avg_goals_home_last3", "avg_goals_away_last3", "top_scores"] ∧
    jsonKeys (scoreEntryToJson e) = ["score", "p"] :=
  ⟨rfl, rfl⟩

/-- C8 counterexample: the field name p_over_1_5 claimed by the spec does
not occur among the serialized keys. -/
theorem c8_counterexample : "p_over_1_5" ∉ jsonKeys (predictionToJson dummyPred) := by
  decide

/-! ### C10 -/

theorem to_prediction_congr (g g' : RngAlg) (lg dt hm aw : String)
    (h : ∀ i, g (predKey lg dt hm aw) i = g' (predKey lg dt hm aw) i) :
    _to_prediction g lg dt hm aw = _to_prediction g' lg dt hm aw := by
  have hk : g (predKey lg dt hm aw) = g' (predKey lg dt hm aw) := funext h
  unfold _to_prediction _seeded_rng
  rw [hk]

/-- All seed keys that _mock_fixtures_for_date for a date can ever use:
the fixtures key of the date and the prediction key of every pool entry. -/
def relevantKeys (d : String) : List String :=
  fixturesKey d ::
    leaguePools.flatMap (fun lp => lp.2.map (fun hw => predKey lp.1 d hw.1 hw.2))

theorem mockAux_congr (g g' : RngAlg) (dt : String) (s : ℕ → ℚ) (hs : validStream s)
    (pools : List (String × List (String × String))) :
    ∀ (n : ℕ), (∀ lp ∈ pools, lp.2 ≠ []) →
      (∀ lp ∈ pools, ∀ hw ∈ lp.2,
        _to_prediction g lp.1 dt hw.1 hw.2 = _to_prediction g' lp.1 dt hw.1 hw.2) →
      mockAux g dt pools { vals := s, idx := n } =
        mockAux g' dt pools { vals := s, idx := n } := by
  induction pools with
  | nil => intro n _ _; rfl
  | cons p rest ih =>
    intro n hne hpred
    obtain ⟨lg, pool⟩ := p
    have hrest_ne : ∀ lp ∈ rest, lp.2 ≠ [] :=
      fun lp hlp => hne lp (List.mem_cons_of_mem _ hlp)
    have hrest_pred : ∀ lp ∈ rest, ∀ hw ∈ lp.2,
        _to_prediction g lp.1 dt hw.1 hw.2 = _to_prediction g' lp.1 dt hw.1 hw.2 :=
      fun lp hlp => hpred lp (List.mem_cons_of_mem _ hlp)
    simp only [mockAux]
    split_ifs with hcoin
    · have hpool_ne : pool ≠ [] := hne (lg, pool) (List.mem_cons_self _ _)
      have hlen : 0 < pool.length := List.length_pos.mpr hpool_ne
      have hv := hs (n + 1)
      have hlenq : (0:ℚ) < (pool.length:ℚ) := by exact_mod_cast hlen
      have hidx : (⌊s (n + 1) * (pool.length:ℚ)⌋).toNat < pool.length := by
        have hfl : ⌊s (n + 1) * (pool.length:ℚ)⌋ < (pool.length : ℤ) := by
          rw [Int.floor_lt]
          push_cast
          nlinarith [hv.2, hlenq]
        have hfl0 : 0 ≤ ⌊s (n + 1) * (pool.length:ℚ)⌋ := by
          apply Int.floor_nonneg.mpr
          nlinarith [hv.1, hlenq]
        omega
      have hmem : pool.getD (⌊s (n + 1) * (pool.length:ℚ)⌋).toNat ("", "") ∈ pool := by
        rw [List.getD_eq_getElem _ _ hidx]
        exact List.getElem_mem hidx
      have hhead := hpred (lg, pool) (List.mem_cons_self _ _) _ hmem
      dsimp only at hhead
      rw [hhead, ih (n + 2) hrest_ne hrest_pred]
    · exact ih (n + 1) hrest_ne hrest_pred

/-- C10: all apparent randomness of a Prediction is drawn from the rng
seeded by the key built from (league, date, home, away): two rng
algorithms agreeing on that key stream give identical records.  Likewise
the mock fixture list for a date depends only on the streams of the keys
determined by the date, so it is a deterministic function of the date. -/
theorem c10_determinism :
    (∀ (g g' : RngAlg) (lg dt hm aw : String),
        (∀ i, g (predKey lg dt hm aw) i = g' (predKey lg dt hm aw) i) →
        _to_prediction g lg dt hm aw = _to_prediction g' lg dt hm aw) ∧
    (∀ (g g' : RngAlg) (d : String), validAlg g →
        (∀ k ∈ relevantKeys d, ∀ i, g k i = g' k i) →
        _mock_fixtures_for_date g d = _mock_fixtures_for_date g' d) := by
  constructor
  · exact to_prediction_congr
  · intro g g' d hg hag
    have hfk : g (fixturesKey d) = g' (fixturesKey d) :=
      funext (fun i => hag (fixturesKey d) (by simp [relevantKeys]) i)
    have hs : validStream (g' (fixturesKey d)) := hfk ▸ hg (fixturesKey d)
    unfold _mock_fixtures_for_date _seeded_rng
    rw [hfk]
    apply mockAux_congr g g' d (g' (fixturesKey d)) hs leaguePools 0
    · decide
    · intro lp hlp hw hhw
      apply to_prediction_congr
      intro i
      apply hag
      apply List.mem_cons_of_mem
      rw [List.mem_flatMap]
      exact ⟨lp, hlp, List.mem_map.mpr ⟨hw, hhw, rfl⟩⟩

/-- C10 witness: changing the rng stream of an unrelated seed key changes
neither a concrete prediction nor a concrete mock fixture list. -/
theorem c10_witness :
    _to_prediction halfG "Eredivisie" "2024-01-01" "Ajax" "Feyenoord" =
      _to_prediction offKeyG "Eredivisie" "2024-01-01" "Ajax" "Feyenoord" ∧
    _mock_fixtures_for_date halfG "2024-01-01" =
      _mock_fixtures_for_date offKeyG "2024-01-01" := by
  constructor
  · apply c10_determinism.1
    intro i
    have hne : predKey "Eredivisie" "2024-01-01" "Ajax" "Feyenoord" ≠ "zzz" := by decide
    simp [halfG, offKeyG, hne]
  · apply c10_determinism.2 halfG offKeyG "2024-01-01" validAlg_halfG
    intro k hk i
    have hkne : k ≠ "zzz" := by
      intro h
      subst h
      revert hk
      decide
    simp [halfG, offKeyG, hkne]

end FootyPredict
